import Mathlib

/-!
Verification of the Kombu RPC client
(`src/mistral/engine/rpc_backend/kombu/kombu_client.py`).

The client is embedded shallowly: `KombuRPCClient.init` mirrors `__init__`
(lines 31-78), `KombuRPCClient.wait_for_result` mirrors `_wait_for_result`
(lines 80-90), `KombuRPCClient.callTry` mirrors the `try` block of `_call`
(lines 114-139), `KombuRPCClient.call` mirrors `_call` as a whole including
its `finally` clause (lines 92-144), and `sync_call` / `async_call` mirror
lines 146-150.  External effects — the producer publish and the listener's
`get_result` — are supplied by an `Env`; each run returns its outcome
(value returned or exception raised) together with the trace of calls made
to the listener registry and the producer.
-/

/-- A Python runtime value, as far as this client observes or constructs one:
`PyObj.none` is Python `None`; `mistralException msg` is an
`exc.MistralException(msg)` instance; `exc cls msg` is any other exception
object; `str`/`nat` cover plain payloads. -/
inductive PyObj where
  | none
  | str (s : String)
  | nat (n : Nat)
  | mistralException (msg : String)
  | exc (cls : String) (msg : String)
deriving DecidableEq, Repr

/-- The authentication context passed to `_call`; the client only ever calls
`ctx.to_dict()` (line 106), so the context is opaque except for that
projection. -/
structure Ctx where
  to_dict : PyObj
deriving DecidableEq, Repr

/-- The configuration dictionary read by `__init__` (lines 36-46), with one
field per `conf.get` call. -/
structure Conf where
  exchange : String
  user_id : String
  password : String
  topic : String
  server_id : String
  host : String
  port : Nat
  virtual_host : String
  durable_queues : Bool
  auto_delete : Bool
  timeout : Nat
deriving DecidableEq, Repr

/-- A kombu exchange as declared by `_make_exchange` (lines 56-60). -/
structure Exchange where
  name : String
  durable : Bool
  auto_delete : Bool
deriving DecidableEq, Repr

/-- A kombu queue as declared by `kombu.Queue` (lines 64-71). -/
structure Queue where
  name : String
  exchange : Exchange
  routing_key : String
  durable : Bool
  exclusive : Bool
  auto_delete : Bool
deriving DecidableEq, Repr

/-- The request body dict built at lines 105-110 of `_call`; field names are
the dict keys of the source. -/
structure RequestBody where
  rpc_ctx : PyObj
  rpc_method : String
  arguments : List (String × PyObj)
  async : Bool
deriving DecidableEq, Repr

/-- One invocation of `producer.publish` (lines 120-128): the body together
with every keyword property the source passes. -/
structure PublishedMessage where
  body : RequestBody
  exchange : String
  routing_key : String
  reply_to : String
  correlation_id : String
  serializer : String
  delivery_mode : Nat
deriving DecidableEq, Repr

/-- AMQP delivery mode 2 marks a message persistent; the source passes
`delivery_mode=2` at line 127. -/
def persistentDeliveryMode : Nat := 2

/-- The dict returned by `listener.get_result`, read at lines 135-136 via the
keys `kombu_base.TYPE` and `kombu_base.RESULT`. -/
structure RpcResult where
  type : String
  result : PyObj
deriving DecidableEq, Repr

/-- One externally visible step of `_call`: a call into the listener registry
(`add_listener`, `get_result`, `remove_listener`) or an invocation of
`producer.publish`. -/
inductive Event where
  | addListener (correlation_id : String)
  | publish (msg : PublishedMessage)
  | getResult (correlation_id : String) (timeout : Nat)
  | removeListener (correlation_id : String)
deriving DecidableEq, Repr

/-- Whether an event is a `producer.publish` invocation. -/
def Event.isPublishB : Event → Bool
  | .publish _ => true
  | _ => false

/-- Whether an event is a `remove_listener` invocation. -/
def Event.isRemoveB : Event → Bool
  | .removeListener _ => true
  | _ => false

/-- Whether an event is an `add_listener` invocation. -/
def Event.isAddB : Event → Bool
  | .addListener _ => true
  | _ => false

/-- The message of a publish event, if any. -/
def Event.publishedMsg : Event → Option PublishedMessage
  | .publish m => some m
  | _ => none

/-- The listener registry's content after replaying a trace of events over an
initial content: `add_listener` inserts the id, `remove_listener` deletes it
unconditionally, other events leave the registry unchanged. -/
def registryAfter (reg : List String) : List Event → List String
  | [] => reg
  | Event.addListener i :: rest => registryAfter (reg ++ [i]) rest
  | Event.removeListener i :: rest => registryAfter (reg.filter (fun j => j != i)) rest
  | Event.publish _ :: rest => registryAfter reg rest
  | Event.getResult _ _ :: rest => registryAfter reg rest

/-- The behaviour of the external collaborators during one call:
`publishResult m` is `none` when `producer.publish` of `m` succeeds and
`some e` when it raises `e`; `getResult cid t` is `none` when
`listener.get_result(cid, t)` raises `queue.Empty` (timeout) and `some r`
when it returns the result dict `r`. -/
structure Env where
  publishResult : PublishedMessage → Option PyObj
  getResult : String → Nat → Option RpcResult

/-- How one run of `_call` terminates: a value returned (Python `None` for
the async early return) or an exception raised. -/
inductive Outcome where
  | returns (v : PyObj)
  | raises (e : PyObj)
deriving DecidableEq, Repr

/-- How the `try` block of `_call` (lines 114-139) exits: early `return`
(line 132), normal fall-through with `res_object` bound (so that line 144
returns it), or an exception propagating into the `finally` clause. -/
inductive TryExit where
  | ret (v : PyObj)
  | fall (res_object : PyObj)
  | raise (e : PyObj)
deriving DecidableEq, Repr

/-- The client state built by `KombuRPCClient.__init__` (lines 31-78); the
connection and listener objects are external and not represented beyond the
callback queue handed to the listener. -/
structure KombuRPCClient where
  exchange : String
  user_id : String
  password : String
  topic : String
  server_id : String
  host : String
  port : Nat
  virtual_host : String
  durable_queue : Bool
  auto_delete : Bool
  _timeout : Nat
  queue_name : String
  callback_queue : Queue
deriving DecidableEq, Repr

/-- `KombuRPCClient.__init__(conf)` (lines 31-78): reads the configuration,
declares the exchange from it (lines 56-60), generates one fresh queue name
(`utils.generate_unicode_uuid()`, line 63, supplied here as `uuid`) and
declares the single callback queue with it (lines 64-71). -/
def KombuRPCClient.init (conf : Conf) (uuid : String) : KombuRPCClient :=
  let exchange : Exchange :=
    { name := conf.exchange
      durable := conf.durable_queues
      auto_delete := conf.auto_delete }
  let queue_name := uuid
  { exchange := conf.exchange
    user_id := conf.user_id
    password := conf.password
    topic := conf.topic
    server_id := conf.server_id
    host := conf.host
    port := conf.port
    virtual_host := conf.virtual_host
    durable_queue := conf.durable_queues
    auto_delete := conf.auto_delete
    _timeout := conf.timeout
    queue_name := queue_name
    callback_queue :=
      { name := queue_name
        exchange := exchange
        routing_key := queue_name
        durable := false
        exclusive := true
        auto_delete := true } }

/-- The request body of lines 105-110 for one call. -/
def requestBody (ctx : Ctx) (method : String) (kwargs : List (String × PyObj))
    (async : Bool) : RequestBody :=
  { rpc_ctx := ctx.to_dict
    rpc_method := method
    arguments := kwargs
    async := async }

/-- The full `producer.publish` invocation of lines 120-128 for one call. -/
def KombuRPCClient.requestMessage (c : KombuRPCClient) (ctx : Ctx) (method : String)
    (async : Bool) (kwargs : List (String × PyObj)) (correlation_id : String) :
    PublishedMessage :=
  { body := requestBody ctx method kwargs async
    exchange := c.exchange
    routing_key := c.topic
    reply_to := c.queue_name
    correlation_id := correlation_id
    serializer := "mistral_serialization"
    delivery_mode := 2 }

/-- `_wait_for_result` (lines 80-90): calls `get_result(correlation_id,
self._timeout)` and converts `queue.Empty` into a raised
`exc.MistralException("RPC Request timeout")`. -/
def KombuRPCClient.wait_for_result (c : KombuRPCClient) (env : Env)
    (correlation_id : String) : Except PyObj RpcResult :=
  match env.getResult correlation_id c._timeout with
  | some r => Except.ok r
  | none => Except.error (PyObj.mistralException "RPC Request timeout")

/-- The `try` block of `_call` (lines 114-139): `add_listener` when not
async, then `producer.publish`, then for async an early `return`, otherwise
`_wait_for_result`, reading `result[TYPE]` and `result[RESULT]` and raising
`res_object` when the type is the string `error`. Returns the exit kind and
the trace of events performed. -/
def KombuRPCClient.callTry (c : KombuRPCClient) (env : Env) (ctx : Ctx)
    (method : String) (async : Bool) (kwargs : List (String × PyObj))
    (correlation_id : String) : TryExit × List Event :=
  let msg := c.requestMessage ctx method async kwargs correlation_id
  let pre : List Event := if !async then [Event.addListener correlation_id] else []
  match env.publishResult msg with
  | some e => (TryExit.raise e, pre ++ [Event.publish msg])
  | none =>
    if async then
      (TryExit.ret PyObj.none, pre ++ [Event.publish msg])
    else
      match c.wait_for_result env correlation_id with
      | Except.error e =>
          (TryExit.raise e,
           pre ++ [Event.publish msg, Event.getResult correlation_id c._timeout])
      | Except.ok result =>
          let res_type := result.type
          let res_object := result.result
          if res_type = "error" then
            (TryExit.raise res_object,
             pre ++ [Event.publish msg, Event.getResult correlation_id c._timeout])
          else
            (TryExit.fall res_object,
             pre ++ [Event.publish msg, Event.getResult correlation_id c._timeout])

/-- `_call` (lines 92-144): the `try` block, followed by the `finally`
clause (`remove_listener` when not async, lines 140-142), followed by
`return res_object` (line 144) on normal fall-through.  `target` is a
parameter of the source signature (line 92) that the body never uses.
`correlation_id` is the fresh uuid generated at line 103, supplied as an
argument. -/
def KombuRPCClient.call (c : KombuRPCClient) (env : Env) (ctx : Ctx)
    (method : String) (target : Option String) (async : Bool)
    (kwargs : List (String × PyObj)) (correlation_id : String) :
    Outcome × List Event :=
  let r := c.callTry env ctx method async kwargs correlation_id
  let fin : List Event := if !async then [Event.removeListener correlation_id] else []
  let tr := r.2 ++ fin
  match r.1 with
  | TryExit.ret v => (Outcome.returns v, tr)
  | TryExit.raise e => (Outcome.raises e, tr)
  | TryExit.fall res_object => (Outcome.returns res_object, tr)

/-- `sync_call` (lines 146-147): `_call` with `async=False`. -/
def KombuRPCClient.sync_call (c : KombuRPCClient) (env : Env) (ctx : Ctx)
    (method : String) (target : Option String)
    (kwargs : List (String × PyObj)) (correlation_id : String) :
    Outcome × List Event :=
  c.call env ctx method target false kwargs correlation_id

/-- `async_call` (lines 149-150): `_call` with `async=True`. -/
def KombuRPCClient.async_call (c : KombuRPCClient) (env : Env) (ctx : Ctx)
    (method : String) (target : Option String)
    (kwargs : List (String × PyObj)) (correlation_id : String) :
    Outcome × List Event :=
  c.call env ctx method target true kwargs correlation_id

/-- Complete characterization of one `sync_call` run, by cases on the
environment: publish failure, timeout, remote error, and success. -/
theorem sync_call_eq (c : KombuRPCClient) (env : Env) (ctx : Ctx)
    (method : String) (target : Option String)
    (kwargs : List (String × PyObj)) (cid : String) :
    c.sync_call env ctx method target kwargs cid =
      (match env.publishResult (c.requestMessage ctx method false kwargs cid) with
       | some e =>
         (Outcome.raises e,
          [Event.addListener cid,
           Event.publish (c.requestMessage ctx method false kwargs cid),
           Event.removeListener cid])
       | none =>
         match env.getResult cid c._timeout with
         | none =>
           (Outcome.raises (PyObj.mistralException "RPC Request timeout"),
            [Event.addListener cid,
             Event.publish (c.requestMessage ctx method false kwargs cid),
             Event.getResult cid c._timeout,
             Event.removeListener cid])
         | some r =>
           ((if r.type = "error" then Outcome.raises r.result
             else Outcome.returns r.result),
            [Event.addListener cid,
             Event.publish (c.requestMessage ctx method false kwargs cid),
             Event.getResult cid c._timeout,
             Event.removeListener cid])) := by
  unfold KombuRPCClient.sync_call KombuRPCClient.call KombuRPCClient.callTry
    KombuRPCClient.wait_for_result
  dsimp only
  cases env.publishResult (c.requestMessage ctx method false kwargs cid) with
  | some e => rfl
  | none =>
    cases env.getResult cid c._timeout with
    | none => rfl
    | some r => by_cases h : r.type = "error" <;> simp [h]

/-- Complete characterization of one `async_call` run: a single publish,
returning Python `None` on success and raising the publish failure
otherwise. -/
theorem async_call_eq (c : KombuRPCClient) (env : Env) (ctx : Ctx)
    (method : String) (target : Option String)
    (kwargs : List (String × PyObj)) (cid : String) :
    c.async_call env ctx method target kwargs cid =
      (match env.publishResult (c.requestMessage ctx method true kwargs cid) with
       | some e => Outcome.raises e
       | none => Outcome.returns PyObj.none,
       [Event.publish (c.requestMessage ctx method true kwargs cid)]) := by
  unfold KombuRPCClient.async_call KombuRPCClient.call KombuRPCClient.callTry
  dsimp only
  cases env.publishResult (c.requestMessage ctx method true kwargs cid) with
  | some e => rfl
  | none => rfl

/-! Concrete fixtures used by witnesses and counterexample runs. -/

/-- A concrete configuration. -/
def conf0 : Conf :=
  { exchange := "openstack"
    user_id := "guest"
    password := "guest"
    topic := "mistral"
    server_id := "engine-1"
    host := "localhost"
    port := 5672
    virtual_host := "/"
    durable_queues := false
    auto_delete := false
    timeout := 60 }

/-- A concrete client built from `conf0` with queue uuid `q-7f3a`. -/
def client0 : KombuRPCClient := KombuRPCClient.init conf0 "q-7f3a"

/-- A concrete authentication context. -/
def ctx0 : Ctx := { to_dict := PyObj.str "ctx-dict" }

/-- A concrete remote error object, as the dispatcher would report it. -/
def remoteErr0 : PyObj := PyObj.exc "ValueError" "bad arg"

/-- Environment in which publishing succeeds and the listener returns a
result dict of kind `error` carrying `remoteErr0`. -/
def envRemoteError : Env :=
  { publishResult := fun _ => Option.none
    getResult := fun _ _ => some { type := "error", result := remoteErr0 } }

/-- Environment in which publishing succeeds and the listener returns a
result dict of kind `result` carrying a plain value. -/
def envRemoteValue : Env :=
  { publishResult := fun _ => Option.none
    getResult := fun _ _ => some { type := "result", result := PyObj.nat 3 } }

/-- Environment in which publishing succeeds and no response ever arrives:
`get_result` raises `queue.Empty`. -/
def envTimeout : Env :=
  { publishResult := fun _ => Option.none
    getResult := fun _ _ => Option.none }

/-- Environment in which publishing succeeds and the dispatcher reports a
remote error that happens to be `MistralException("RPC Request timeout")` —
the very object the timeout path of `_wait_for_result` constructs. -/
def envRemoteTimeoutLookalike : Env :=
  { publishResult := fun _ => Option.none
    getResult := fun _ _ =>
      some { type := "error", result := PyObj.mistralException "RPC Request timeout" } }

/-- Environment in which every `producer.publish` raises. -/
def envPublishFail : Env :=
  { publishResult := fun _ => some (PyObj.exc "IOError" "publish failed")
    getResult := fun _ _ => Option.none }

/-- C1: in every `sync_call` run, whatever the environment does, the trace
starts with `add_listener(correlation_id)` immediately followed by the
publish of the request message: the pending-call slot exists strictly
before the request is published. -/
theorem sync_call_registers_before_publish (c : KombuRPCClient) (env : Env)
    (ctx : Ctx) (method : String) (target : Option String)
    (kwargs : List (String × PyObj)) (cid : String) :
    ∃ rest, (c.sync_call env ctx method target kwargs cid).2 =
      Event.addListener cid ::
        Event.publish (c.requestMessage ctx method false kwargs cid) :: rest := by
  rw [sync_call_eq]
  cases env.publishResult (c.requestMessage ctx method false kwargs cid) with
  | some e => exact ⟨_, rfl⟩
  | none =>
    cases env.getResult cid c._timeout with
    | none => exact ⟨_, rfl⟩
    | some r => exact ⟨_, rfl⟩

/-- C2: in every `sync_call` run — value, remote error, timeout, or publish
failure — the trace contains exactly one `remove_listener`, it carries this
call's correlation id, it is the last step, and replaying the trace against
an empty registry leaves the registry empty: no residual entry survives. -/
theorem sync_call_removes_listener_exactly_once (c : KombuRPCClient) (env : Env)
    (ctx : Ctx) (method : String) (target : Option String)
    (kwargs : List (String × PyObj)) (cid : String) :
    ((c.sync_call env ctx method target kwargs cid).2.filter Event.isRemoveB
        = [Event.removeListener cid]) ∧
    ((c.sync_call env ctx method target kwargs cid).2.getLast?
        = some (Event.removeListener cid)) ∧
    registryAfter [] (c.sync_call env ctx method target kwargs cid).2 = [] := by
  rw [sync_call_eq]
  cases env.publishResult (c.requestMessage ctx method false kwargs cid) with
  | some e => exact ⟨rfl, rfl, by simp [registryAfter]⟩
  | none =>
    cases env.getResult cid c._timeout with
    | none => exact ⟨rfl, rfl, by simp [registryAfter]⟩
    | some r => exact ⟨rfl, rfl, by simp [registryAfter]⟩

/-- C3: when the publish succeeds and the listener delivers a response dict
`r`, `sync_call` raises exactly the embedded object `r.result` when the
response kind is the string `error`, and returns exactly `r.result`
otherwise — the object is passed through unchanged in both cases. -/
theorem sync_call_propagates_remote_outcome (c : KombuRPCClient) (env : Env)
    (ctx : Ctx) (method : String) (target : Option String)
    (kwargs : List (String × PyObj)) (cid : String) (r : RpcResult)
    (hp : env.publishResult (c.requestMessage ctx method false kwargs cid) = none)
    (hg : env.getResult cid c._timeout = some r) :
    (c.sync_call env ctx method target kwargs cid).1 =
      (if r.type = "error" then Outcome.raises r.result
       else Outcome.returns r.result) := by
  rw [sync_call_eq, hp, hg]

/-- Witness for C3 at a concrete input: against `envRemoteError` the call
raises the reported `ValueError` object itself, and against
`envRemoteValue` it returns the reported payload. -/
theorem sync_call_propagates_remote_outcome_witness :
    (client0.sync_call envRemoteError ctx0 "run_task" none [] "cid-1").1
        = Outcome.raises remoteErr0 ∧
    (client0.sync_call envRemoteValue ctx0 "run_task" none [] "cid-1").1
        = Outcome.returns (PyObj.nat 3) := by
  have he := sync_call_propagates_remote_outcome client0 envRemoteError ctx0
    "run_task" none [] "cid-1" { type := "error", result := remoteErr0 } rfl rfl
  have hv := sync_call_propagates_remote_outcome client0 envRemoteValue ctx0
    "run_task" none [] "cid-1" { type := "result", result := PyObj.nat 3 } rfl rfl
  exact ⟨by simpa using he, by simpa using hv⟩

/-- C4 (code bug): on timeout the code raises the generic
`exc.MistralException("RPC Request timeout")` — not the distinct
`RpcTimeout` its own docstring (lines 83-85) promises — and a remote error
reported as that same `MistralException` produces an outcome identical to
the timeout outcome, so the timeout is not a distinct error kind the caller
can distinguish from a remote-reported error. -/
theorem sync_call_timeout_not_distinct_kind :
    (client0.sync_call envTimeout ctx0 "run_task" none [] "cid-1").1
        = Outcome.raises (PyObj.mistralException "RPC Request timeout") ∧
    (client0.sync_call envRemoteTimeoutLookalike ctx0 "run_task" none [] "cid-1").1
        = (client0.sync_call envTimeout ctx0 "run_task" none [] "cid-1").1 := by
  constructor
  · rfl
  · decide

/-- C5: an `async_call` run performs exactly one event — the publish of the
request message: it never calls `add_listener`, `get_result` or
`remove_listener`, so it leaves any registry content unchanged; its outcome
is Python `None` when the publish succeeds and the publish failure
otherwise. -/
theorem async_call_never_registers_never_waits (c : KombuRPCClient) (env : Env)
    (ctx : Ctx) (method : String) (target : Option String)
    (kwargs : List (String × PyObj)) (cid : String) (reg : List String) :
    ((c.async_call env ctx method target kwargs cid).2
        = [Event.publish (c.requestMessage ctx method true kwargs cid)]) ∧
    ((c.async_call env ctx method target kwargs cid).2.all Event.isPublishB
        = true) ∧
    registryAfter reg (c.async_call env ctx method target kwargs cid).2 = reg ∧
    ((c.async_call env ctx method target kwargs cid).1 =
      match env.publishResult (c.requestMessage ctx method true kwargs cid) with
      | none => Outcome.returns PyObj.none
      | some e => Outcome.raises e) := by
  rw [async_call_eq]
  cases env.publishResult (c.requestMessage ctx method true kwargs cid) with
  | some e => exact ⟨rfl, rfl, rfl, rfl⟩
  | none => exact ⟨rfl, rfl, rfl, rfl⟩

/-- C6: in every run, the bodies of all publish events form exactly the
singleton request envelope dict built at lines 105-110: context dict, the
given method name, the given keyword arguments, and the async flag — false
for `sync_call`, true for `async_call`. -/
theorem published_body_is_request_envelope (c : KombuRPCClient) (env : Env)
    (ctx : Ctx) (method : String) (target : Option String)
    (kwargs : List (String × PyObj)) (cid : String) :
    (((c.sync_call env ctx method target kwargs cid).2.filterMap
        Event.publishedMsg).map PublishedMessage.body
      = [{ rpc_ctx := ctx.to_dict, rpc_method := method,
           arguments := kwargs, async := false }]) ∧
    (((c.async_call env ctx method target kwargs cid).2.filterMap
        Event.publishedMsg).map PublishedMessage.body
      = [{ rpc_ctx := ctx.to_dict, rpc_method := method,
           arguments := kwargs, async := true }]) := by
  rw [sync_call_eq, async_call_eq]
  constructor
  · cases env.publishResult (c.requestMessage ctx method false kwargs cid) with
    | some e => rfl
    | none =>
      cases env.getResult cid c._timeout with
      | none => rfl
      | some r => rfl
  · cases env.publishResult (c.requestMessage ctx method true kwargs cid) with
    | some e => rfl
    | none => rfl

/-- C7: in every run — synchronous or asynchronous — exactly one message is
handed to `producer.publish`, and it goes to the configured exchange under
the configured topic as routing key, with `reply_to` the client's private
queue name, `correlation_id` the id generated for this call, and persistent
delivery mode. -/
theorem publish_uses_configured_addressing (c : KombuRPCClient) (env : Env)
    (ctx : Ctx) (method : String) (target : Option String)
    (kwargs : List (String × PyObj)) (cid : String) :
    ((c.sync_call env ctx method target kwargs cid).2.filterMap
        Event.publishedMsg = [c.requestMessage ctx method false kwargs cid]) ∧
    ((c.async_call env ctx method target kwargs cid).2.filterMap
        Event.publishedMsg = [c.requestMessage ctx method true kwargs cid]) ∧
    ∀ b : Bool,
      (c.requestMessage ctx method b kwargs cid).exchange = c.exchange ∧
      (c.requestMessage ctx method b kwargs cid).routing_key = c.topic ∧
      (c.requestMessage ctx method b kwargs cid).reply_to = c.queue_name ∧
      (c.requestMessage ctx method b kwargs cid).correlation_id = cid ∧
      (c.requestMessage ctx method b kwargs cid).delivery_mode
        = persistentDeliveryMode := by
  rw [sync_call_eq, async_call_eq]
  refine ⟨?_, ?_, fun b => ⟨rfl, rfl, rfl, rfl, rfl⟩⟩
  · cases env.publishResult (c.requestMessage ctx method false kwargs cid) with
    | some e => rfl
    | none =>
      cases env.getResult cid c._timeout with
      | none => rfl
      | some r => rfl
  · cases env.publishResult (c.requestMessage ctx method true kwargs cid) with
    | some e => rfl
    | none => rfl

/-- C8: construction declares the client's single callback queue
non-durable, exclusive and auto-delete, names it with the freshly generated
uuid, binds it to the exchange declared from the configuration, and uses
the queue's own name as its routing key. -/
theorem init_declares_private_reply_queue (conf : Conf) (uuid : String) :
    ((KombuRPCClient.init conf uuid).callback_queue.durable = false) ∧
    ((KombuRPCClient.init conf uuid).callback_queue.exclusive = true) ∧
    ((KombuRPCClient.init conf uuid).callback_queue.auto_delete = true) ∧
    ((KombuRPCClient.init conf uuid).queue_name = uuid) ∧
    ((KombuRPCClient.init conf uuid).callback_queue.name
        = (KombuRPCClient.init conf uuid).queue_name) ∧
    ((KombuRPCClient.init conf uuid).callback_queue.routing_key
        = (KombuRPCClient.init conf uuid).callback_queue.name) ∧
    ((KombuRPCClient.init conf uuid).callback_queue.exchange
        = { name := conf.exchange, durable := conf.durable_queues,
            auto_delete := conf.auto_delete }) :=
  ⟨rfl, rfl, rfl, rfl, rfl, rfl, rfl⟩

/-- C9: when `producer.publish` raises `e`, both call flavours raise exactly
`e` to the caller after a single publish attempt; the synchronous flavour
still runs `remove_listener` as its final step before the exception
propagates, while the asynchronous flavour has nothing to remove. -/
theorem publish_failure_propagates_without_retry (c : KombuRPCClient)
    (env : Env) (ctx : Ctx) (method : String) (target : Option String)
    (kwargs : List (String × PyObj)) (cid : String) (e e2 : PyObj)
    (hs : env.publishResult (c.requestMessage ctx method false kwargs cid) = some e)
    (ha : env.publishResult (c.requestMessage ctx method true kwargs cid) = some e2) :
    ((c.sync_call env ctx method target kwargs cid).1 = Outcome.raises e) ∧
    ((c.sync_call env ctx method target kwargs cid).2.filter Event.isPublishB
        = [Event.publish (c.requestMessage ctx method false kwargs cid)]) ∧
    ((c.sync_call env ctx method target kwargs cid).2.getLast?
        = some (Event.removeListener cid)) ∧
    ((c.async_call env ctx method target kwargs cid).1 = Outcome.raises e2) ∧
    ((c.async_call env ctx method target kwargs cid).2
        = [Event.publish (c.requestMessage ctx method true kwargs cid)]) := by
  rw [sync_call_eq, async_call_eq, hs, ha]
  exact ⟨rfl, rfl, rfl, rfl, rfl⟩

/-- Witness for C9 at a concrete input: against `envPublishFail` both
flavours raise the publish failure object. -/
theorem publish_failure_propagates_without_retry_witness :
    (client0.sync_call envPublishFail ctx0 "run_task" none [] "cid-1").1
        = Outcome.raises (PyObj.exc "IOError" "publish failed") ∧
    (client0.async_call envPublishFail ctx0 "run_task" none [] "cid-1").1
        = Outcome.raises (PyObj.exc "IOError" "publish failed") := by
  have h := publish_failure_propagates_without_retry client0 envPublishFail ctx0
    "run_task" none [] "cid-1" (PyObj.exc "IOError" "publish failed")
    (PyObj.exc "IOError" "publish failed") rfl rfl
  exact ⟨h.1, h.2.2.2.1⟩

/-- C10: the `target` parameter is dead on both entry points: two calls
differing only in `target` produce identical outcomes and identical traces
(hence identical published messages). -/
theorem target_parameter_is_ignored (c : KombuRPCClient) (env : Env)
    (ctx : Ctx) (method : String) (kwargs : List (String × PyObj))
    (cid : String) (t1 t2 : Option String) :
    (c.sync_call env ctx method t1 kwargs cid
        = c.sync_call env ctx method t2 kwargs cid) ∧
    (c.async_call env ctx method t1 kwargs cid
        = c.async_call env ctx method t2 kwargs cid) :=
  ⟨rfl, rfl⟩
